import Mathlib

/-!
Verification of the real-time connection registry and event fan-out hub of the
courier delivery management system, as implemented in
`src/backend/src/websocket/connection_manager.py` and the realtime-notify
section of `src/backend/src/services/delivery_service.py`.

The embedding is a faithful shallow translation of the Python code:

* `ConnectionManager` mirrors the class of the same name.  Python dicts are
  modelled as association lists in insertion order; Python sets of ints as
  duplicate-free lists (`set.add` is insert-if-absent, `set.discard` is
  filter).
* The transport (`websocket.send_text`) is the only primitive that can raise.
  Its behaviour per user is an oracle `beh : Nat → SendBeh`; an attempted send
  either succeeds, raises `WebSocketDisconnect`, or raises a generic
  exception.  Each operation is typed in `Except PyErr` so that the Python
  `try/except` blocks can be translated literally; the handler branches are
  the ones from the source.
* Message payloads are modelled by the inductive `Envelope`; latitude and
  longitude are carried as exact rationals (the code never computes with
  them, it only forwards them).
* Delivered envelopes are returned as an explicit log `List (Nat × Envelope)`
  of (recipient, envelope) pairs: a pair is appended exactly when the Python
  code's `websocket.send_text` call succeeds.
-/

/-- User roles, from `src/models/user.py` (`UserRole`), as used by the
connection manager's role index. -/
inductive UserRole where
  | admin
  | courier
  | sender
  | recipient
deriving DecidableEq, Repr

/-- Behaviour of one attempted transport send to a given user:
success, raising `WebSocketDisconnect`, or raising a generic `Exception`. -/
inductive SendBeh where
  | ok
  | disc
  | fail
deriving DecidableEq, Repr

/-- Exceptions that the transport primitive can raise inside
`send_personal_message` (`WebSocketDisconnect` and a generic `Exception`). -/
inductive PyErr where
  | wsDisconnect
  | otherError
deriving DecidableEq, Repr

/-- Outbound message envelopes built by the connection manager
(`connection_established`, subscription confirmations, `package_update`,
`delivery_location`), keeping the discriminating payload fields. -/
inductive Envelope where
  | connectionEstablished (user_id : Nat) (role : UserRole)
  | packageSubscribed (package_id : Nat)
  | packageUnsubscribed (package_id : Nat)
  | deliverySubscribed (delivery_id : Nat)
  | deliveryUnsubscribed (delivery_id : Nat)
  | packageUpdate (update_type : String) (package_id : Nat) (payload : String) (timestamp : String)
  | deliveryLocation (delivery_id : Nat) (lat lng : Rat) (timestamp : String)
deriving DecidableEq, Repr

/-- The fixed timestamp constant appearing in the source. -/
def tsDefault : String := "2024-01-01T00:00:00Z"

/-- `self.connections_by_role`: the dict with exactly the four role keys. -/
structure RoleIndex where
  admin : List Nat
  courier : List Nat
  sender : List Nat
  recipient : List Nat
deriving DecidableEq, Repr

/-- Read one role's set (`self.connections_by_role[role]`). -/
def roleGet (ri : RoleIndex) : UserRole → List Nat
  | .admin => ri.admin
  | .courier => ri.courier
  | .sender => ri.sender
  | .recipient => ri.recipient

/-- Python `set.add` on a set of ints modelled as a duplicate-free list. -/
def addElem (s : List Nat) (x : Nat) : List Nat :=
  if x ∈ s then s else s ++ [x]

/-- `self.connections_by_role[role].add(uid)`. -/
def roleAdd (ri : RoleIndex) (r : UserRole) (uid : Nat) : RoleIndex :=
  match r with
  | .admin => { ri with admin := addElem ri.admin uid }
  | .courier => { ri with courier := addElem ri.courier uid }
  | .sender => { ri with sender := addElem ri.sender uid }
  | .recipient => { ri with recipient := addElem ri.recipient uid }

/-- The `for role_set in self.connections_by_role.values(): role_set.discard(user_id)`
loop in `disconnect`. -/
def roleDiscardAll (ri : RoleIndex) (uid : Nat) : RoleIndex :=
  { admin := ri.admin.filter (fun v => v != uid),
    courier := ri.courier.filter (fun v => v != uid),
    sender := ri.sender.filter (fun v => v != uid),
    recipient := ri.recipient.filter (fun v => v != uid) }

/-- First-match lookup in an association list (Python dict `[]` / `get`). -/
def assocFind : List (Nat × List Nat) → Nat → Option (List Nat)
  | [], _ => none
  | (k, v) :: rest, key => if k = key then some v else assocFind rest key

/-- Python `key in dict`. -/
def assocHas (m : List (Nat × List Nat)) (key : Nat) : Bool :=
  (assocFind m key).isSome

/-- In-place mutation of the value stored at a key (Python `dict[key].add(...)`
and friends); first matching entry only, matching dict semantics. -/
def assocUpdate : List (Nat × List Nat) → Nat → (List Nat → List Nat) → List (Nat × List Nat)
  | [], _, _ => []
  | (k, v) :: rest, key, f =>
      if k = key then (k, f v) :: rest else (k, v) :: assocUpdate rest key f

/-- Python `del dict[key]`. -/
def assocDel (m : List (Nat × List Nat)) (key : Nat) : List (Nat × List Nat) :=
  m.filter (fun p => p.1 != key)

/-- State of `ConnectionManager` (`__init__`): live connections keyed by user
id (the transport handle itself is externalized into the behaviour oracle),
the role index, both subscription maps, and the stored event loop handle. -/
structure ConnectionManager where
  active_connections : List Nat
  connections_by_role : RoleIndex
  package_subscriptions : List (Nat × List Nat)
  delivery_subscriptions : List (Nat × List Nat)
  loop : Option Unit
deriving DecidableEq, Repr

/-- The freshly constructed manager (`ConnectionManager.__init__`). -/
def initCM : ConnectionManager :=
  { active_connections := []
    connections_by_role := { admin := [], courier := [], sender := [], recipient := [] }
    package_subscriptions := []
    delivery_subscriptions := []
    loop := none }

/-- One `websocket.send_text` call to the user's transport, driven by the
behaviour oracle: it either returns or raises. -/
def sendText (b : SendBeh) : Except PyErr Unit :=
  match b with
  | .ok => Except.ok ()
  | .disc => Except.error PyErr.wsDisconnect
  | .fail => Except.error PyErr.otherError

/-- Report of one `send_personal_message` call: the message was transmitted,
the user had no live connection, or the transport raised (either handler). -/
inductive SendResult where
  | delivered
  | notConnected
  | failed
deriving DecidableEq, Repr

/-- `disconnect(user_id)` (lines 63-85): drop the live connection, discard the
user from every role set, delete the user's **package** subscriptions (the
delivery map is not touched by the source), and clear the stored loop handle
once no active connection remains. -/
def disconnect (cm : ConnectionManager) (uid : Nat) : ConnectionManager :=
  let cm1 :=
    if uid ∈ cm.active_connections then
      { cm with
        active_connections := cm.active_connections.filter (fun v => v != uid),
        connections_by_role := roleDiscardAll cm.connections_by_role uid,
        package_subscriptions :=
          if assocHas cm.package_subscriptions uid then
            assocDel cm.package_subscriptions uid
          else cm.package_subscriptions }
    else cm
  if cm1.active_connections.isEmpty then { cm1 with loop := none } else cm1

/-- The `try` body of `send_personal_message` (lines 87-96): if the user is
connected, send on its transport (which may raise), else log a warning. -/
def spmBody (beh : Nat → SendBeh) (cm : ConnectionManager) (message : Envelope) (user_id : Nat) :
    Except PyErr (ConnectionManager × List (Nat × Envelope) × SendResult) :=
  if user_id ∈ cm.active_connections then
    match sendText (beh user_id) with
    | Except.ok _ => Except.ok (cm, [(user_id, message)], SendResult.delivered)
    | Except.error e => Except.error e
  else Except.ok (cm, [], SendResult.notConnected)

/-- `send_personal_message(message, user_id)` (lines 87-101) with its two
handlers: `except WebSocketDisconnect` cascades into `disconnect`, and
`except Exception` merely logs; neither re-raises. -/
def send_personal_message (beh : Nat → SendBeh) (cm : ConnectionManager)
    (message : Envelope) (user_id : Nat) :
    Except PyErr (ConnectionManager × List (Nat × Envelope) × SendResult) :=
  match spmBody beh cm message user_id with
  | Except.ok v => Except.ok v
  | Except.error PyErr.wsDisconnect =>
      Except.ok (disconnect cm user_id, [], SendResult.failed)
  | Except.error PyErr.otherError => Except.ok (cm, [], SendResult.failed)

/-- The registration steps of `connect` before the welcome message
(lines 34-47): capture the running loop, store the connection, add the user to
its role's set, and initialize the user's package subscription set only when
no entry exists; the delivery map is not touched by the source. -/
def connRegister (cm : ConnectionManager) (uid : Nat) (role : UserRole) : ConnectionManager :=
  let cm1 := { cm with loop := some () }
  let cm2 := { cm1 with active_connections := addElem cm1.active_connections uid }
  let cm3 := { cm2 with connections_by_role := roleAdd cm2.connections_by_role role uid }
  if assocHas cm3.package_subscriptions uid then cm3
  else { cm3 with package_subscriptions := cm3.package_subscriptions ++ [(uid, [])] }

/-- `connect(websocket, user)` (lines 31-61): accept (modelled as succeeding),
register, then send the `connection_established` welcome message.  The
`except` clause of `connect` re-raises, hence the error is propagated. -/
def connect (beh : Nat → SendBeh) (cm : ConnectionManager) (uid : Nat) (role : UserRole) :
    Except PyErr (ConnectionManager × List (Nat × Envelope)) :=
  let cm1 := connRegister cm uid role
  match send_personal_message beh cm1 (Envelope.connectionEstablished uid role) uid with
  | Except.ok (cm2, out, _) => Except.ok (cm2, out)
  | Except.error e => Except.error e

/-- The mutation step of `subscribe_to_package` (lines 157-160): create the
entry if absent, then `add` the package id. -/
def pkgSubAdd (cm : ConnectionManager) (uid pid : Nat) : ConnectionManager :=
  let cm1 :=
    if assocHas cm.package_subscriptions uid then cm
    else { cm with package_subscriptions := cm.package_subscriptions ++ [(uid, [])] }
  { cm1 with package_subscriptions := assocUpdate cm1.package_subscriptions uid (fun s => addElem s pid) }

/-- `subscribe_to_package(user_id, package_id)` (lines 154-171): mutate the
map, then send the confirmation; the whole body is wrapped in
`except Exception` which only logs (mutations already applied are kept). -/
def subscribe_to_package (beh : Nat → SendBeh) (cm : ConnectionManager) (uid pid : Nat) :
    Except PyErr (ConnectionManager × List (Nat × Envelope)) :=
  let cm1 := pkgSubAdd cm uid pid
  match send_personal_message beh cm1 (Envelope.packageSubscribed pid) uid with
  | Except.ok (cm2, out, _) => Except.ok (cm2, out)
  | Except.error _ => Except.ok (cm1, [])

/-- The mutation step of `unsubscribe_from_package` (lines 176-177):
`discard` the package id when the entry exists. -/
def pkgSubDiscard (cm : ConnectionManager) (uid pid : Nat) : ConnectionManager :=
  if assocHas cm.package_subscriptions uid then
    { cm with package_subscriptions :=
        assocUpdate cm.package_subscriptions uid (fun s => s.filter (fun x => x != pid)) }
  else cm

/-- `unsubscribe_from_package(user_id, package_id)` (lines 173-188). -/
def unsubscribe_from_package (beh : Nat → SendBeh) (cm : ConnectionManager) (uid pid : Nat) :
    Except PyErr (ConnectionManager × List (Nat × Envelope)) :=
  let cm1 := pkgSubDiscard cm uid pid
  match send_personal_message beh cm1 (Envelope.packageUnsubscribed pid) uid with
  | Except.ok (cm2, out, _) => Except.ok (cm2, out)
  | Except.error _ => Except.ok (cm1, [])

/-- The mutation step of `subscribe_to_delivery` (lines 239-242). -/
def dlvSubAdd (cm : ConnectionManager) (uid did : Nat) : ConnectionManager :=
  let cm1 :=
    if assocHas cm.delivery_subscriptions uid then cm
    else { cm with delivery_subscriptions := cm.delivery_subscriptions ++ [(uid, [])] }
  { cm1 with delivery_subscriptions := assocUpdate cm1.delivery_subscriptions uid (fun s => addElem s did) }

/-- `subscribe_to_delivery(user_id, delivery_id)` (lines 236-252). -/
def subscribe_to_delivery (beh : Nat → SendBeh) (cm : ConnectionManager) (uid did : Nat) :
    Except PyErr (ConnectionManager × List (Nat × Envelope)) :=
  let cm1 := dlvSubAdd cm uid did
  match send_personal_message beh cm1 (Envelope.deliverySubscribed did) uid with
  | Except.ok (cm2, out, _) => Except.ok (cm2, out)
  | Except.error _ => Except.ok (cm1, [])

/-- The mutation step of `unsubscribe_from_delivery` (lines 257-258). -/
def dlvSubDiscard (cm : ConnectionManager) (uid did : Nat) : ConnectionManager :=
  if assocHas cm.delivery_subscriptions uid then
    { cm with delivery_subscriptions :=
        assocUpdate cm.delivery_subscriptions uid (fun s => s.filter (fun x => x != did)) }
  else cm

/-- `unsubscribe_from_delivery(user_id, delivery_id)` (lines 254-268). -/
def unsubscribe_from_delivery (beh : Nat → SendBeh) (cm : ConnectionManager) (uid did : Nat) :
    Except PyErr (ConnectionManager × List (Nat × Envelope)) :=
  let cm1 := dlvSubDiscard cm uid did
  match send_personal_message beh cm1 (Envelope.deliveryUnsubscribed did) uid with
  | Except.ok (cm2, out, _) => Except.ok (cm2, out)
  | Except.error _ => Except.ok (cm1, [])

/-- The fan-out loop of the notify functions (`for user_id in subscribed_users:
await self.send_personal_message(message, user_id)`): no per-recipient
handler here, so an exception would propagate to the enclosing `except`. -/
def notifyLoop (beh : Nat → SendBeh) (msg : Envelope) :
    ConnectionManager → List Nat → Except PyErr (ConnectionManager × List (Nat × Envelope))
  | cm, [] => Except.ok (cm, [])
  | cm, uid :: rest =>
    match send_personal_message beh cm msg uid with
    | Except.error e => Except.error e
    | Except.ok (cm1, out, _) =>
      match notifyLoop beh msg cm1 rest with
      | Except.error e => Except.error e
      | Except.ok (cm2, outs) => Except.ok (cm2, out ++ outs)

/-- The fan-out loop of the broadcast functions (lines 112-118): each send is
wrapped in its own `try/except` whose handler appends the user to
`disconnected_users` instead of aborting the loop. -/
def sendLoop (beh : Nat → SendBeh) (msg : Envelope) :
    ConnectionManager → List Nat → ConnectionManager × List (Nat × Envelope) × List Nat
  | cm, [] => (cm, [], [])
  | cm, uid :: rest =>
    match send_personal_message beh cm msg uid with
    | Except.ok (cm1, out, _) =>
      let r := sendLoop beh msg cm1 rest
      (r.1, out ++ r.2.1, r.2.2)
    | Except.error _ =>
      let r := sendLoop beh msg cm rest
      (r.1, r.2.1, r.2.2 ++ [uid])

/-- `broadcast_to_role(message, role)` (lines 103-127): snapshot the role's
set, early-return when empty, fan out, then disconnect the collected
`disconnected_users`; the outer `except Exception` only logs. -/
def broadcast_to_role (beh : Nat → SendBeh) (cm : ConnectionManager)
    (message : Envelope) (role : UserRole) :
    Except PyErr (ConnectionManager × List (Nat × Envelope)) :=
  let user_ids := roleGet cm.connections_by_role role
  if user_ids.isEmpty then Except.ok (cm, [])
  else
    let r := sendLoop beh message cm user_ids
    Except.ok (r.2.2.foldl disconnect r.1, r.2.1)

/-- `broadcast_to_all(message)` (lines 129-152): same shape over the snapshot
of all connected user ids. -/
def broadcast_to_all (beh : Nat → SendBeh) (cm : ConnectionManager) (message : Envelope) :
    Except PyErr (ConnectionManager × List (Nat × Envelope)) :=
  let user_ids := cm.active_connections
  if user_ids.isEmpty then Except.ok (cm, [])
  else
    let r := sendLoop beh message cm user_ids
    Except.ok (r.2.2.foldl disconnect r.1, r.2.1)

/-- The subscriber resolution of `notify_package_update` (lines 194-197). -/
def pkgSubscribersOf (cm : ConnectionManager) (package_id : Nat) : List Nat :=
  (cm.package_subscriptions.filter (fun p => decide (package_id ∈ p.2))).map Prod.fst

/-- `notify_package_update(package_id, package_data, update_type)`
(lines 190-218): resolve subscribers, early-return when none, fan out; the
outer `except Exception` only logs. -/
def notify_package_update (beh : Nat → SendBeh) (cm : ConnectionManager)
    (package_id : Nat) (update_type payload : String) :
    Except PyErr (ConnectionManager × List (Nat × Envelope)) :=
  let subscribed := pkgSubscribersOf cm package_id
  if subscribed.isEmpty then Except.ok (cm, [])
  else
    match notifyLoop beh (Envelope.packageUpdate update_type package_id payload tsDefault) cm subscribed with
    | Except.ok r => Except.ok r
    | Except.error _ => Except.ok (cm, [])

/-- The subscriber resolution of `notify_delivery_location` (lines 273-276). -/
def subscribersOf (cm : ConnectionManager) (delivery_id : Nat) : List Nat :=
  (cm.delivery_subscriptions.filter (fun p => decide (delivery_id ∈ p.2))).map Prod.fst

/-- `notify_delivery_location(delivery_id, lat, lng, timestamp)`
(lines 270-295). -/
def notify_delivery_location (beh : Nat → SendBeh) (cm : ConnectionManager)
    (delivery_id : Nat) (lat lng : Rat) (timestamp : Option String) :
    Except PyErr (ConnectionManager × List (Nat × Envelope)) :=
  let subscribed := subscribersOf cm delivery_id
  if subscribed.isEmpty then Except.ok (cm, [])
  else
    match notifyLoop beh
        (Envelope.deliveryLocation delivery_id lat lng (timestamp.getD tsDefault)) cm subscribed with
    | Except.ok r => Except.ok r
    | Except.error _ => Except.ok (cm, [])

/-- The realtime-notify section of `DeliveryService.update_location`
(`delivery_service.py` lines 86-108), the cross-context bridge: if the stored
serving-loop handle is present, the notify coroutine is scheduled onto it;
otherwise the fallback tries to schedule on or run the current loop, and any
scheduling failure is a silent drop.  `fallbackSchedules` is the oracle for
whether the fallback's scheduling attempt succeeds. -/
def bridge_notify_delivery_location (beh : Nat → SendBeh) (fallbackSchedules : Bool)
    (cm : ConnectionManager) (delivery_id : Nat) (lat lng : Rat) :
    ConnectionManager × List (Nat × Envelope) :=
  match cm.loop with
  | some _ =>
    match notify_delivery_location beh cm delivery_id lat lng none with
    | Except.ok r => r
    | Except.error _ => (cm, [])
  | none =>
    if fallbackSchedules then
      match notify_delivery_location beh cm delivery_id lat lng none with
      | Except.ok r => r
      | Except.error _ => (cm, [])
    else (cm, [])

/-- Transport oracle: every send succeeds. -/
def behOk : Nat → SendBeh := fun _ => SendBeh.ok

/-- Transport oracle: every send raises `WebSocketDisconnect`. -/
def behDisc : Nat → SendBeh := fun _ => SendBeh.disc

/-- Transport oracle: user 1's transport raises `WebSocketDisconnect`,
everyone else's succeeds. -/
def behMix : Nat → SendBeh := fun u => if u = 1 then SendBeh.disc else SendBeh.ok

/-- Extract the state from an operation's result (all operations below are
proved to return `ok`; the default is never used on the states we build). -/
def okCM (r : Except PyErr (ConnectionManager × List (Nat × Envelope)))
    (d : ConnectionManager) : ConnectionManager :=
  match r with
  | Except.ok p => p.1
  | Except.error _ => d

/-- User 1 (courier) connected. -/
def cmA : ConnectionManager := okCM (connect behOk initCM 1 UserRole.courier) initCM

/-- Users 1 (courier) and 2 (sender) connected. -/
def cmAB : ConnectionManager := okCM (connect behOk cmA 2 UserRole.sender) cmA

/-- Users 1 and 2 connected; user 1 subscribed to delivery 7. -/
def cmAB7 : ConnectionManager := okCM (subscribe_to_delivery behOk cmAB 1 7) cmAB

/-- Users 1 and 2 both connected as couriers. -/
def cmCC : ConnectionManager := okCM (connect behOk cmA 2 UserRole.courier) cmA

/-- User 1 connected and subscribed to package 3. -/
def cmP3 : ConnectionManager := okCM (subscribe_to_package behOk cmA 1 3) cmA

/-- Both users of `cmAB7` disconnected again: zero live connections, but the
delivery subscription of user 1 survives in the map. -/
def cmDead : ConnectionManager := disconnect (disconnect cmAB7 1) 2

/-- Nobody connected, yet user 1 holds a package subscription (created by
calling subscribe without a live connection). -/
def cmOrphan : ConnectionManager := okCM (subscribe_to_package behOk initCM 1 3) initCM

/-- User 1 connects while the orphaned package subscription entry exists. -/
def cmOrphanConn : ConnectionManager := okCM (connect behOk cmOrphan 1 UserRole.courier) cmOrphan

/-- `cmP3` after a second (idempotent) subscribe of package 3 by user 1. -/
def cmRT1 : ConnectionManager := okCM (subscribe_to_package behOk cmP3 1 3) cmP3

/-- `cmRT1` after user 1 unsubscribes from package 3. -/
def cmRT2 : ConnectionManager := okCM (unsubscribe_from_package behOk cmRT1 1 3) cmRT1


/-! ## Basic lemmas about the state operations -/

theorem addElem_self_mem (s : List Nat) (x : Nat) : x ∈ addElem s x := by
  unfold addElem
  split
  · assumption
  · simp

theorem disconnect_active (cm : ConnectionManager) (uid : Nat) :
    (disconnect cm uid).active_connections =
      if uid ∈ cm.active_connections then
        cm.active_connections.filter (fun v => v != uid)
      else cm.active_connections := by
  unfold disconnect
  by_cases h : uid ∈ cm.active_connections <;> simp only [h, if_pos, if_neg, if_true, if_false] <;>
    split <;> rfl

theorem disconnect_active_iff (cm : ConnectionManager) (uid v : Nat) :
    v ∈ (disconnect cm uid).active_connections ↔
      v ∈ cm.active_connections ∧ v ≠ uid := by
  rw [disconnect_active]
  by_cases h : uid ∈ cm.active_connections
  · simp [h, List.mem_filter]
  · simp only [if_neg h]
    constructor
    · intro hv
      exact ⟨hv, fun e => h (e ▸ hv)⟩
    · exact fun hv => hv.1

theorem disconnect_delivery (cm : ConnectionManager) (uid : Nat) :
    (disconnect cm uid).delivery_subscriptions = cm.delivery_subscriptions := by
  unfold disconnect
  by_cases h : uid ∈ cm.active_connections <;> simp only [h, if_true, if_false] <;>
    split <;> rfl

theorem disconnect_roles (cm : ConnectionManager) (uid : Nat) :
    (disconnect cm uid).connections_by_role =
      if uid ∈ cm.active_connections then roleDiscardAll cm.connections_by_role uid
      else cm.connections_by_role := by
  unfold disconnect
  by_cases h : uid ∈ cm.active_connections <;> simp only [h, if_true, if_false] <;>
    split <;> rfl

theorem disconnect_pkg (cm : ConnectionManager) (uid : Nat) :
    (disconnect cm uid).package_subscriptions =
      if uid ∈ cm.active_connections then
        (if assocHas cm.package_subscriptions uid then
           assocDel cm.package_subscriptions uid
         else cm.package_subscriptions)
      else cm.package_subscriptions := by
  unfold disconnect
  by_cases h : uid ∈ cm.active_connections <;> simp only [h, if_true, if_false] <;>
    split <;> rfl

theorem assocFind_del (m : List (Nat × List Nat)) (k : Nat) :
    assocFind (assocDel m k) k = none := by
  induction m with
  | nil => rfl
  | cons p rest ih =>
    unfold assocDel at ih ⊢
    by_cases h : p.1 = k
    · simp [List.filter_cons, h, ih]
    · simp only [List.filter_cons]
      have hb : (p.1 != k) = true := by simpa [bne_iff_ne] using h
      rw [hb]
      simp only [if_true]
      unfold assocFind
      cases p with
      | mk a b =>
        simp only at h
        simp [h, ih]

/-! ## Case lemmas for `send_personal_message` -/

theorem spm_not_connected (beh : Nat → SendBeh) (cm : ConnectionManager)
    (msg : Envelope) (uid : Nat) (h : uid ∉ cm.active_connections) :
    send_personal_message beh cm msg uid = Except.ok (cm, [], SendResult.notConnected) := by
  unfold send_personal_message spmBody
  simp [h]

theorem spm_send_ok (beh : Nat → SendBeh) (cm : ConnectionManager)
    (msg : Envelope) (uid : Nat) (h : uid ∈ cm.active_connections)
    (hb : beh uid = SendBeh.ok) :
    send_personal_message beh cm msg uid =
      Except.ok (cm, [(uid, msg)], SendResult.delivered) := by
  unfold send_personal_message spmBody sendText
  simp [h, hb]

theorem spm_send_disc (beh : Nat → SendBeh) (cm : ConnectionManager)
    (msg : Envelope) (uid : Nat) (h : uid ∈ cm.active_connections)
    (hb : beh uid = SendBeh.disc) :
    send_personal_message beh cm msg uid =
      Except.ok (disconnect cm uid, [], SendResult.failed) := by
  unfold send_personal_message spmBody sendText
  simp [h, hb]

theorem spm_send_fail (beh : Nat → SendBeh) (cm : ConnectionManager)
    (msg : Envelope) (uid : Nat) (h : uid ∈ cm.active_connections)
    (hb : beh uid = SendBeh.fail) :
    send_personal_message beh cm msg uid = Except.ok (cm, [], SendResult.failed) := by
  unfold send_personal_message spmBody sendText
  simp [h, hb]

theorem spm_ok_exists (beh : Nat → SendBeh) (cm : ConnectionManager)
    (msg : Envelope) (uid : Nat) :
    ∃ v, send_personal_message beh cm msg uid = Except.ok v := by
  by_cases h : uid ∈ cm.active_connections
  · cases hb : beh uid
    · exact ⟨_, spm_send_ok beh cm msg uid h hb⟩
    · exact ⟨_, spm_send_disc beh cm msg uid h hb⟩
    · exact ⟨_, spm_send_fail beh cm msg uid h hb⟩
  · exact ⟨_, spm_not_connected beh cm msg uid h⟩

/-! ## Characterizations of the fan-out loops -/

theorem notifyLoop_all_ok (beh : Nat → SendBeh) (msg : Envelope) :
    ∀ (ids : List Nat) (cm : ConnectionManager),
      (∀ u ∈ ids, u ∈ cm.active_connections ∧ beh u = SendBeh.ok) →
      notifyLoop beh msg cm ids = Except.ok (cm, ids.map (fun u => (u, msg))) := by
  intro ids
  induction ids with
  | nil => intro cm _; rfl
  | cons uid rest ih =>
    intro cm h
    have h1 := h uid (List.mem_cons_self uid rest)
    have e1 := spm_send_ok beh cm msg uid h1.1 h1.2
    have e2 := ih cm (fun u hu => h u (List.mem_cons_of_mem _ hu))
    simp only [notifyLoop, e1, e2, List.map_cons, List.singleton_append]

theorem notifyLoop_no_active (beh : Nat → SendBeh) (msg : Envelope) :
    ∀ (ids : List Nat) (cm : ConnectionManager), cm.active_connections = [] →
      notifyLoop beh msg cm ids = Except.ok (cm, []) := by
  intro ids
  induction ids with
  | nil => intro cm _; rfl
  | cons uid rest ih =>
    intro cm h
    have hnc : uid ∉ cm.active_connections := by simp [h]
    simp only [notifyLoop, spm_not_connected beh cm msg uid hnc, ih cm h, List.nil_append]

theorem notifyLoop_out_active (beh : Nat → SendBeh) (msg : Envelope) :
    ∀ (ids : List Nat) (cm cm2 : ConnectionManager) (outs : List (Nat × Envelope)),
      notifyLoop beh msg cm ids = Except.ok (cm2, outs) →
      ∀ v, v ∉ cm.active_connections → ∀ e, (v, e) ∉ outs := by
  intro ids
  induction ids with
  | nil =>
    intro cm cm2 outs h v _ e
    simp only [notifyLoop, Except.ok.injEq, Prod.mk.injEq] at h
    simp [← h.2]
  | cons uid rest ih =>
    intro cm cm2 outs h v hv e
    by_cases hm : uid ∈ cm.active_connections
    · cases hb : beh uid
      · simp only [notifyLoop, spm_send_ok beh cm msg uid hm hb] at h
        cases hrec : notifyLoop beh msg cm rest with
        | error er => rw [hrec] at h; exact absurd h (by simp)
        | ok r =>
          obtain ⟨cmr, outsr⟩ := r
          rw [hrec] at h
          simp only [Except.ok.injEq, Prod.mk.injEq] at h
          rw [← h.2]
          intro hmem
          rcases List.mem_append.mp hmem with hl | hr
          · simp only [List.mem_singleton, Prod.mk.injEq] at hl
            exact hv (hl.1 ▸ hm)
          · exact ih cm cmr outsr hrec v hv e hr
      · simp only [notifyLoop, spm_send_disc beh cm msg uid hm hb] at h
        cases hrec : notifyLoop beh msg (disconnect cm uid) rest with
        | error er => rw [hrec] at h; exact absurd h (by simp)
        | ok r =>
          obtain ⟨cmr, outsr⟩ := r
          rw [hrec] at h
          simp only [Except.ok.injEq, Prod.mk.injEq] at h
          rw [← h.2]
          have hv1 : v ∉ (disconnect cm uid).active_connections := by
            intro hc
            exact hv ((disconnect_active_iff cm uid v).mp hc).1
          simpa using ih (disconnect cm uid) cmr outsr hrec v hv1 e
      · simp only [notifyLoop, spm_send_fail beh cm msg uid hm hb] at h
        cases hrec : notifyLoop beh msg cm rest with
        | error er => rw [hrec] at h; exact absurd h (by simp)
        | ok r =>
          obtain ⟨cmr, outsr⟩ := r
          rw [hrec] at h
          simp only [Except.ok.injEq, Prod.mk.injEq] at h
          rw [← h.2]
          simpa using ih cm cmr outsr hrec v hv e
    · simp only [notifyLoop, spm_not_connected beh cm msg uid hm] at h
      cases hrec : notifyLoop beh msg cm rest with
      | error er => rw [hrec] at h; exact absurd h (by simp)
      | ok r =>
        obtain ⟨cmr, outsr⟩ := r
        rw [hrec] at h
        simp only [Except.ok.injEq, Prod.mk.injEq] at h
        rw [← h.2]
        simpa using ih cm cmr outsr hrec v hv e

theorem notifyLoop_spec (beh : Nat → SendBeh) (msg : Envelope) :
    ∀ (ids : List Nat) (cm : ConnectionManager), ids.Nodup →
      ∃ cm2, notifyLoop beh msg cm ids = Except.ok (cm2,
        (ids.filter (fun u =>
            decide (u ∈ cm.active_connections) && decide (beh u = SendBeh.ok))).map
          (fun u => (u, msg))) := by
  intro ids
  induction ids with
  | nil => exact fun cm _ => ⟨cm, rfl⟩
  | cons uid rest ih =>
    intro cm hnd
    have hnd' : rest.Nodup := hnd.of_cons
    have hnotin : uid ∉ rest := (List.nodup_cons.mp hnd).1
    by_cases hm : uid ∈ cm.active_connections
    · cases hb : beh uid
      · obtain ⟨cm2, hrec⟩ := ih cm hnd'
        refine ⟨cm2, ?_⟩
        simp only [notifyLoop, spm_send_ok beh cm msg uid hm hb, hrec, List.filter_cons]
        simp [hm, hb]
      · obtain ⟨cm2, hrec⟩ := ih (disconnect cm uid) hnd'
        refine ⟨cm2, ?_⟩
        have hfc : rest.filter (fun u =>
            decide (u ∈ (disconnect cm uid).active_connections) && decide (beh u = SendBeh.ok)) =
          rest.filter (fun u =>
            decide (u ∈ cm.active_connections) && decide (beh u = SendBeh.ok)) := by
          apply List.filter_congr
          intro x hx
          have hxne : x ≠ uid := fun e => hnotin (e ▸ hx)
          by_cases hxa : x ∈ cm.active_connections
          · have : x ∈ (disconnect cm uid).active_connections :=
              (disconnect_active_iff cm uid x).mpr ⟨hxa, hxne⟩
            simp [this, hxa]
          · have : x ∉ (disconnect cm uid).active_connections := by
              intro hc
              exact hxa ((disconnect_active_iff cm uid x).mp hc).1
            simp [this, hxa]
        rw [hfc] at hrec
        simp only [notifyLoop, spm_send_disc beh cm msg uid hm hb, hrec, List.filter_cons]
        simp [hb]
      · obtain ⟨cm2, hrec⟩ := ih cm hnd'
        refine ⟨cm2, ?_⟩
        simp only [notifyLoop, spm_send_fail beh cm msg uid hm hb, hrec, List.filter_cons]
        simp [hb]
    · obtain ⟨cm2, hrec⟩ := ih cm hnd'
      refine ⟨cm2, ?_⟩
      simp only [notifyLoop, spm_not_connected beh cm msg uid hm, hrec, List.filter_cons]
      simp [hm]

theorem sendLoop_eq_notifyLoop (beh : Nat → SendBeh) (msg : Envelope) :
    ∀ (ids : List Nat) (cm : ConnectionManager),
      ∃ cm2 outs, notifyLoop beh msg cm ids = Except.ok (cm2, outs) ∧
        sendLoop beh msg cm ids = (cm2, outs, []) := by
  intro ids
  induction ids with
  | nil => exact fun cm => ⟨cm, [], rfl, rfl⟩
  | cons uid rest ih =>
    intro cm
    obtain ⟨⟨cm1, out, r⟩, e1⟩ := spm_ok_exists beh cm msg uid
    obtain ⟨cm2, outs, hn, hs⟩ := ih cm1
    refine ⟨cm2, out ++ outs, ?_, ?_⟩
    · simp only [notifyLoop, e1, hn]
    · simp only [sendLoop, e1, hs]

/-! ## Characterizations of the broadcast and notify operations -/

theorem broadcast_role_outs (beh : Nat → SendBeh) (cm : ConnectionManager) (msg : Envelope)
    (role : UserRole) (hnd : (roleGet cm.connections_by_role role).Nodup) :
    ∀ cm' outs, broadcast_to_role beh cm msg role = Except.ok (cm', outs) →
      outs = ((roleGet cm.connections_by_role role).filter (fun u =>
          decide (u ∈ cm.active_connections) && decide (beh u = SendBeh.ok))).map
        (fun u => (u, msg)) := by
  intro cm' outs h
  simp only [broadcast_to_role] at h
  split at h
  · rename_i he
    have hnil : roleGet cm.connections_by_role role = [] := List.isEmpty_iff.mp he
    simp only [Except.ok.injEq, Prod.mk.injEq] at h
    rw [← h.2, hnil]
    simp
  · obtain ⟨cm2, outs0, hn, hs⟩ :=
      sendLoop_eq_notifyLoop beh msg (roleGet cm.connections_by_role role) cm
    obtain ⟨cm2', hspec⟩ := notifyLoop_spec beh msg (roleGet cm.connections_by_role role) cm hnd
    rw [hn] at hspec
    simp only [Except.ok.injEq, Prod.mk.injEq] at hspec
    rw [hs] at h
    simp only [List.foldl_nil, Except.ok.injEq, Prod.mk.injEq] at h
    rw [← h.2, hspec.2]

theorem broadcast_role_all_ok (beh : Nat → SendBeh) (cm : ConnectionManager) (msg : Envelope)
    (role : UserRole)
    (hall : ∀ u ∈ roleGet cm.connections_by_role role,
      u ∈ cm.active_connections ∧ beh u = SendBeh.ok) :
    broadcast_to_role beh cm msg role =
      Except.ok (cm, (roleGet cm.connections_by_role role).map (fun u => (u, msg))) := by
  simp only [broadcast_to_role]
  split
  · rename_i he
    have hnil : roleGet cm.connections_by_role role = [] := List.isEmpty_iff.mp he
    rw [hnil]
    rfl
  · obtain ⟨cm2, outs0, hn, hs⟩ :=
      sendLoop_eq_notifyLoop beh msg (roleGet cm.connections_by_role role) cm
    have hall' := notifyLoop_all_ok beh msg (roleGet cm.connections_by_role role) cm hall
    rw [hall'] at hn
    have h1 : cm2 = cm := by
      have := hn
      simp only [Except.ok.injEq, Prod.mk.injEq] at this
      exact this.1.symm
    have h2 : outs0 = (roleGet cm.connections_by_role role).map (fun u => (u, msg)) := by
      have := hn
      simp only [Except.ok.injEq, Prod.mk.injEq] at this
      exact this.2.symm
    rw [hs, h1, h2]
    simp

theorem notify_delivery_out_active (beh : Nat → SendBeh) (cm : ConnectionManager)
    (d : Nat) (lat lng : Rat) (ts : Option String) (cm' : ConnectionManager)
    (outs : List (Nat × Envelope)) :
    notify_delivery_location beh cm d lat lng ts = Except.ok (cm', outs) →
    ∀ v, v ∉ cm.active_connections → ∀ e, (v, e) ∉ outs := by
  intro h v hv e
  simp only [notify_delivery_location] at h
  split at h
  · simp only [Except.ok.injEq, Prod.mk.injEq] at h
    simp [← h.2]
  · split at h
    · rename_i r hrec
      obtain ⟨cmr, outsr⟩ := r
      simp only [Except.ok.injEq, Prod.mk.injEq] at h
      rw [← h.2]
      exact notifyLoop_out_active beh _ _ cm cmr outsr hrec v hv e
    · simp only [Except.ok.injEq, Prod.mk.injEq] at h
      simp [← h.2]

theorem notify_package_out_active (beh : Nat → SendBeh) (cm : ConnectionManager)
    (pid : Nat) (ut pl : String) (cm' : ConnectionManager) (outs : List (Nat × Envelope)) :
    notify_package_update beh cm pid ut pl = Except.ok (cm', outs) →
    ∀ v, v ∉ cm.active_connections → ∀ e, (v, e) ∉ outs := by
  intro h v hv e
  simp only [notify_package_update] at h
  split at h
  · simp only [Except.ok.injEq, Prod.mk.injEq] at h
    simp [← h.2]
  · split at h
    · rename_i r hrec
      obtain ⟨cmr, outsr⟩ := r
      simp only [Except.ok.injEq, Prod.mk.injEq] at h
      rw [← h.2]
      exact notifyLoop_out_active beh _ _ cm cmr outsr hrec v hv e
    · simp only [Except.ok.injEq, Prod.mk.injEq] at h
      simp [← h.2]

theorem notify_delivery_all_ok (beh : Nat → SendBeh) (cm : ConnectionManager)
    (d : Nat) (lat lng : Rat) (ts : Option String)
    (hall : ∀ u ∈ subscribersOf cm d, u ∈ cm.active_connections ∧ beh u = SendBeh.ok) :
    notify_delivery_location beh cm d lat lng ts =
      Except.ok (cm, (subscribersOf cm d).map
        (fun u => (u, Envelope.deliveryLocation d lat lng (ts.getD tsDefault)))) := by
  simp only [notify_delivery_location]
  split
  · rename_i he
    have hnil : subscribersOf cm d = [] := List.isEmpty_iff.mp he
    rw [hnil]
    rfl
  · rw [notifyLoop_all_ok beh _ (subscribersOf cm d) cm hall]

/-! ## Lemmas about the subscription maps and the role index -/

theorem find_none_of_has_false (m : List (Nat × List Nat)) (k : Nat)
    (h : assocHas m k = false) : assocFind m k = none := by
  unfold assocHas at h
  cases hf : assocFind m k
  · rfl
  · rw [hf] at h
    simp at h

theorem assocFind_append_none (m : List (Nat × List Nat)) (k : Nat) (v : List Nat)
    (h : assocFind m k = none) : assocFind (m ++ [(k, v)]) k = some v := by
  induction m with
  | nil => simp [assocFind]
  | cons p rest ih =>
    obtain ⟨a, b⟩ := p
    by_cases ha : a = k
    · rw [assocFind, if_pos ha] at h
      exact absurd h (by simp)
    · rw [assocFind, if_neg ha] at h
      simpa [assocFind, ha] using ih h

theorem assocFind_update (m : List (Nat × List Nat)) (k : Nat) (f : List Nat → List Nat) :
    assocFind (assocUpdate m k f) k = Option.map f (assocFind m k) := by
  induction m with
  | nil => rfl
  | cons p rest ih =>
    obtain ⟨a, b⟩ := p
    by_cases ha : a = k
    · simp [assocUpdate, assocFind, ha]
    · simp [assocUpdate, assocFind, ha, ih]

theorem assocUpdate_update (m : List (Nat × List Nat)) (k : Nat)
    (f g : List Nat → List Nat) :
    assocUpdate (assocUpdate m k f) k g = assocUpdate m k (fun v => g (f v)) := by
  induction m with
  | nil => rfl
  | cons p rest ih =>
    obtain ⟨a, b⟩ := p
    by_cases ha : a = k
    · simp [assocUpdate, ha]
    · simp [assocUpdate, ha, ih]

theorem assocUpdate_id_of_find (m : List (Nat × List Nat)) (k : Nat)
    (h : List Nat → List Nat) (s : List Nat)
    (hf : assocFind m k = some s) (hid : h s = s) : assocUpdate m k h = m := by
  induction m with
  | nil => rfl
  | cons p rest ih =>
    obtain ⟨a, b⟩ := p
    by_cases ha : a = k
    · rw [assocFind, if_pos ha] at hf
      have hb : b = s := by simpa using hf
      simp [assocUpdate, ha, hb, hid]
    · rw [assocFind, if_neg ha] at hf
      simp [assocUpdate, ha, ih hf]

theorem roleDiscardAll_not_mem (ri : RoleIndex) (uid : Nat) (r : UserRole) :
    uid ∉ roleGet (roleDiscardAll ri uid) r := by
  cases r <;> simp [roleGet, roleDiscardAll, List.mem_filter]

theorem roleAdd_self_mem (ri : RoleIndex) (r : UserRole) (uid : Nat) :
    uid ∈ roleGet (roleAdd ri r uid) r := by
  cases r <;> simp [roleGet, roleAdd, addElem_self_mem]

theorem pkgSubAdd_active (cm : ConnectionManager) (uid pid : Nat) :
    (pkgSubAdd cm uid pid).active_connections = cm.active_connections := by
  unfold pkgSubAdd
  split <;> rfl

theorem pkgSubAdd_delivery (cm : ConnectionManager) (uid pid : Nat) :
    (pkgSubAdd cm uid pid).delivery_subscriptions = cm.delivery_subscriptions := by
  unfold pkgSubAdd
  split <;> rfl

theorem pkgSubAdd_find (cm : ConnectionManager) (uid pid : Nat) :
    assocFind (pkgSubAdd cm uid pid).package_subscriptions uid =
      some (addElem ((assocFind cm.package_subscriptions uid).getD []) pid) := by
  unfold pkgSubAdd
  by_cases hh : assocHas cm.package_subscriptions uid
  · simp only [hh, if_true]
    cases hf : assocFind cm.package_subscriptions uid
    · simp [assocHas, hf] at hh
    · rename_i s
      simp [assocFind_update, hf]
  · simp only [hh, if_false]
    have hf : assocFind cm.package_subscriptions uid = none :=
      find_none_of_has_false _ _ (by simpa using hh)
    simp [assocFind_update, assocFind_append_none _ _ _ hf, hf]

theorem pkgSubAdd_of_found (cm : ConnectionManager) (uid pid : Nat) (s : List Nat)
    (hf : assocFind cm.package_subscriptions uid = some s) :
    pkgSubAdd cm uid pid =
      { cm with package_subscriptions :=
          assocUpdate cm.package_subscriptions uid (fun v => addElem v pid) } := by
  unfold pkgSubAdd
  have hh : assocHas cm.package_subscriptions uid = true := by simp [assocHas, hf]
  simp [hh]

theorem connRegister_active (cm : ConnectionManager) (uid : Nat) (role : UserRole) :
    (connRegister cm uid role).active_connections = addElem cm.active_connections uid := by
  by_cases h : assocHas cm.package_subscriptions uid <;> simp [connRegister, h]

theorem connRegister_roles (cm : ConnectionManager) (uid : Nat) (role : UserRole) :
    (connRegister cm uid role).connections_by_role = roleAdd cm.connections_by_role role uid := by
  by_cases h : assocHas cm.package_subscriptions uid <;> simp [connRegister, h]

theorem connRegister_delivery (cm : ConnectionManager) (uid : Nat) (role : UserRole) :
    (connRegister cm uid role).delivery_subscriptions = cm.delivery_subscriptions := by
  by_cases h : assocHas cm.package_subscriptions uid <;> simp [connRegister, h]

theorem connRegister_pkg (cm : ConnectionManager) (uid : Nat) (role : UserRole) :
    (connRegister cm uid role).package_subscriptions =
      if assocHas cm.package_subscriptions uid then cm.package_subscriptions
      else cm.package_subscriptions ++ [(uid, [])] := by
  by_cases h : assocHas cm.package_subscriptions uid <;> simp [connRegister, h]

/-! ## Field-wise equality for manager states -/

theorem cm_eq (a b : ConnectionManager)
    (h1 : a.active_connections = b.active_connections)
    (h2 : a.connections_by_role = b.connections_by_role)
    (h3 : a.package_subscriptions = b.package_subscriptions)
    (h4 : a.delivery_subscriptions = b.delivery_subscriptions)
    (h5 : a.loop = b.loop) : a = b := by
  cases a
  cases b
  simp_all

theorem pkgSubAdd_roles (cm : ConnectionManager) (uid pid : Nat) :
    (pkgSubAdd cm uid pid).connections_by_role = cm.connections_by_role := by
  unfold pkgSubAdd
  split <;> rfl

theorem pkgSubAdd_loop (cm : ConnectionManager) (uid pid : Nat) :
    (pkgSubAdd cm uid pid).loop = cm.loop := by
  unfold pkgSubAdd
  split <;> rfl

theorem pkgSubAdd_pkg_found (cm : ConnectionManager) (uid pid : Nat) (s : List Nat)
    (hf : assocFind cm.package_subscriptions uid = some s) :
    (pkgSubAdd cm uid pid).package_subscriptions =
      assocUpdate cm.package_subscriptions uid (fun v => addElem v pid) := by
  rw [pkgSubAdd_of_found cm uid pid s hf]

theorem pkgSubDiscard_active (cm : ConnectionManager) (uid pid : Nat) :
    (pkgSubDiscard cm uid pid).active_connections = cm.active_connections := by
  unfold pkgSubDiscard
  split <;> rfl

theorem pkgSubDiscard_roles (cm : ConnectionManager) (uid pid : Nat) :
    (pkgSubDiscard cm uid pid).connections_by_role = cm.connections_by_role := by
  unfold pkgSubDiscard
  split <;> rfl

theorem pkgSubDiscard_delivery (cm : ConnectionManager) (uid pid : Nat) :
    (pkgSubDiscard cm uid pid).delivery_subscriptions = cm.delivery_subscriptions := by
  unfold pkgSubDiscard
  split <;> rfl

theorem pkgSubDiscard_loop (cm : ConnectionManager) (uid pid : Nat) :
    (pkgSubDiscard cm uid pid).loop = cm.loop := by
  unfold pkgSubDiscard
  split <;> rfl

theorem pkgSubDiscard_pkg_has (cm : ConnectionManager) (uid pid : Nat)
    (hh : assocHas cm.package_subscriptions uid = true) :
    (pkgSubDiscard cm uid pid).package_subscriptions =
      assocUpdate cm.package_subscriptions uid (fun v => v.filter (fun x => x != pid)) := by
  unfold pkgSubDiscard
  simp [hh]

theorem pkgSubAdd_delivery_eq (cm : ConnectionManager) (uid pid : Nat) :
    (pkgSubAdd cm uid pid).delivery_subscriptions = cm.delivery_subscriptions :=
  pkgSubAdd_delivery cm uid pid

/-! ## Claim C6 -/

/-- C6: `send_personal_message` reports one of Delivered, NotConnected, or
Failed; a transport failure (`WebSocketDisconnect`) is treated as an implicit
disconnect — the resulting state is exactly `disconnect cm uid` — and in every
case the call returns normally (`Except.ok`), never surfacing the failure to
the caller. -/
theorem send_personal_message_trichotomy (beh : Nat → SendBeh) (cm : ConnectionManager)
    (msg : Envelope) (uid : Nat) :
    (uid ∉ cm.active_connections →
      send_personal_message beh cm msg uid = Except.ok (cm, [], SendResult.notConnected)) ∧
    (uid ∈ cm.active_connections → beh uid = SendBeh.ok →
      send_personal_message beh cm msg uid = Except.ok (cm, [(uid, msg)], SendResult.delivered)) ∧
    (uid ∈ cm.active_connections → beh uid = SendBeh.disc →
      send_personal_message beh cm msg uid = Except.ok (disconnect cm uid, [], SendResult.failed)) ∧
    (uid ∈ cm.active_connections → beh uid = SendBeh.fail →
      send_personal_message beh cm msg uid = Except.ok (cm, [], SendResult.failed)) :=
  ⟨spm_not_connected beh cm msg uid, spm_send_ok beh cm msg uid,
   spm_send_disc beh cm msg uid, spm_send_fail beh cm msg uid⟩

/-- Witness for C6: user 1 is connected in `cmA` and its transport raises
`WebSocketDisconnect`; the send reports Failed, cascades into `disconnect`,
and returns normally. -/
theorem send_personal_message_trichotomy_witness :
    send_personal_message behDisc cmA (Envelope.packageSubscribed 5) 1 =
      Except.ok (disconnect cmA 1, [], SendResult.failed) :=
  (send_personal_message_trichotomy behDisc cmA (Envelope.packageSubscribed 5) 1).2.2.1
    (by decide) (by decide)

/-! ## Claim C10 -/

/-- C10: every public operation other than `connect` — disconnect is total by
construction, and each `Except`-typed operation below — catches its internal
exceptions and returns normally (`Except.ok`) for every transport behaviour,
so one connection's transport failure can abort neither the serving loop nor
a broadcast in progress. -/
theorem operations_never_propagate (beh : Nat → SendBeh) (cm : ConnectionManager) :
    (∀ msg uid, ∃ v, send_personal_message beh cm msg uid = Except.ok v) ∧
    (∀ msg role, ∃ v, broadcast_to_role beh cm msg role = Except.ok v) ∧
    (∀ msg, ∃ v, broadcast_to_all beh cm msg = Except.ok v) ∧
    (∀ uid pid, ∃ v, subscribe_to_package beh cm uid pid = Except.ok v) ∧
    (∀ uid pid, ∃ v, unsubscribe_from_package beh cm uid pid = Except.ok v) ∧
    (∀ uid did, ∃ v, subscribe_to_delivery beh cm uid did = Except.ok v) ∧
    (∀ uid did, ∃ v, unsubscribe_from_delivery beh cm uid did = Except.ok v) ∧
    (∀ pid ut pl, ∃ v, notify_package_update beh cm pid ut pl = Except.ok v) ∧
    (∀ d lat lng ts, ∃ v, notify_delivery_location beh cm d lat lng ts = Except.ok v) := by
  refine ⟨fun msg uid => spm_ok_exists beh cm msg uid, ?_, ?_, ?_, ?_, ?_, ?_, ?_, ?_⟩
  · intro msg role
    simp only [broadcast_to_role]
    split
    · exact ⟨_, rfl⟩
    · exact ⟨_, rfl⟩
  · intro msg
    simp only [broadcast_to_all]
    split
    · exact ⟨_, rfl⟩
    · exact ⟨_, rfl⟩
  · intro uid pid
    obtain ⟨⟨cm1, out, r⟩, e⟩ :=
      spm_ok_exists beh (pkgSubAdd cm uid pid) (Envelope.packageSubscribed pid) uid
    simp only [subscribe_to_package, e]
    exact ⟨_, rfl⟩
  · intro uid pid
    obtain ⟨⟨cm1, out, r⟩, e⟩ :=
      spm_ok_exists beh (pkgSubDiscard cm uid pid) (Envelope.packageUnsubscribed pid) uid
    simp only [unsubscribe_from_package, e]
    exact ⟨_, rfl⟩
  · intro uid did
    obtain ⟨⟨cm1, out, r⟩, e⟩ :=
      spm_ok_exists beh (dlvSubAdd cm uid did) (Envelope.deliverySubscribed did) uid
    simp only [subscribe_to_delivery, e]
    exact ⟨_, rfl⟩
  · intro uid did
    obtain ⟨⟨cm1, out, r⟩, e⟩ :=
      spm_ok_exists beh (dlvSubDiscard cm uid did) (Envelope.deliveryUnsubscribed did) uid
    simp only [unsubscribe_from_delivery, e]
    exact ⟨_, rfl⟩
  · intro pid ut pl
    simp only [notify_package_update]
    split
    · exact ⟨_, rfl⟩
    · split
      · exact ⟨_, rfl⟩
      · exact ⟨_, rfl⟩
  · intro d lat lng ts
    simp only [notify_delivery_location]
    split
    · exact ⟨_, rfl⟩
    · split
      · exact ⟨_, rfl⟩
      · exact ⟨_, rfl⟩

/-! ## Claim C2 -/

/-- C2 counterexample: from the freshly constructed manager, with user 1 not
connected, `subscribe_to_package` is not a no-op — it creates the orphaned
entry `(1, [3])` — so the invariant (no subscription without a live
connection) is not preserved. -/
theorem subscribe_unconnected_not_noop_cex :
    subscribe_to_package behOk initCM 1 3 =
      Except.ok ({ initCM with package_subscriptions := [(1, [3])] }, []) ∧
    1 ∉ initCM.active_connections ∧
    ({ initCM with package_subscriptions := [(1, [3])] } : ConnectionManager) ≠ initCM :=
  ⟨rfl, by decide, by decide⟩

/-- C2 (amended): `subscribe_to_package` applied to an identity with no live
connection is not a no-op: it adds the ref to the identity's subscription set
anyway, creating an entry owned by a non-connected identity (only the
confirmation message is skipped), so the claimed invariant fails. -/
theorem subscribe_unconnected_creates_entry (beh : Nat → SendBeh) (cm : ConnectionManager)
    (uid pid : Nat) (h : uid ∉ cm.active_connections) :
    subscribe_to_package beh cm uid pid = Except.ok (pkgSubAdd cm uid pid, []) ∧
    pid ∈ (assocFind (pkgSubAdd cm uid pid).package_subscriptions uid).getD [] ∧
    uid ∉ (pkgSubAdd cm uid pid).active_connections := by
  have hna : uid ∉ (pkgSubAdd cm uid pid).active_connections := by
    rw [pkgSubAdd_active]
    exact h
  refine ⟨?_, ?_, hna⟩
  · simp only [subscribe_to_package, spm_not_connected beh _ _ uid hna]
  · rw [pkgSubAdd_find]
    simp [addElem_self_mem]

/-- Witness for C2's amended theorem at the initial state and user 1. -/
theorem subscribe_unconnected_creates_entry_witness :
    subscribe_to_package behOk initCM 1 3 = Except.ok (pkgSubAdd initCM 1 3, []) ∧
    3 ∈ (assocFind (pkgSubAdd initCM 1 3).package_subscriptions 1).getD [] ∧
    1 ∉ (pkgSubAdd initCM 1 3).active_connections :=
  subscribe_unconnected_creates_entry behOk initCM 1 3 (by decide)

/-! ## Claim C8 -/

/-- C8 counterexample: user 1 already holds package subscription `{3}`
(created while unconnected); `connect` keeps the existing set `{3}` instead
of re-initializing it to the empty set, and creates no delivery-namespace
entry at all. -/
theorem connect_keeps_existing_package_subs_cex :
    connect behOk cmOrphan 1 UserRole.courier =
      Except.ok (cmOrphanConn, [(1, Envelope.connectionEstablished 1 UserRole.courier)]) ∧
    assocFind cmOrphanConn.package_subscriptions 1 = some [3] ∧
    some ([3] : List Nat) ≠ some ([] : List Nat) ∧
    cmOrphanConn.delivery_subscriptions = [] ∧
    1 ∈ cmOrphanConn.active_connections :=
  ⟨rfl, by decide, by decide, by decide, by decide⟩

/-- C8 (amended): `connect` registers the live connection and the role-index
membership; the package SubscriptionSet is initialized to the empty set only
when no entry existed beforehand — a pre-existing entry is retained unchanged
— and the delivery namespace is not touched at all. (Hypothesis: the welcome
send succeeds.) -/
theorem connect_registration_spec (beh : Nat → SendBeh) (cm : ConnectionManager)
    (uid : Nat) (role : UserRole) (hb : beh uid = SendBeh.ok) :
    connect beh cm uid role =
      Except.ok (connRegister cm uid role,
        [(uid, Envelope.connectionEstablished uid role)]) ∧
    uid ∈ (connRegister cm uid role).active_connections ∧
    uid ∈ roleGet (connRegister cm uid role).connections_by_role role ∧
    (assocFind cm.package_subscriptions uid = none →
      assocFind (connRegister cm uid role).package_subscriptions uid = some []) ∧
    (∀ s, assocFind cm.package_subscriptions uid = some s →
      assocFind (connRegister cm uid role).package_subscriptions uid = some s) ∧
    (connRegister cm uid role).delivery_subscriptions = cm.delivery_subscriptions := by
  have hact : uid ∈ (connRegister cm uid role).active_connections := by
    rw [connRegister_active]
    exact addElem_self_mem _ _
  refine ⟨?_, hact, ?_, ?_, ?_, connRegister_delivery cm uid role⟩
  · simp only [connect, spm_send_ok beh _ _ uid hact hb]
  · rw [connRegister_roles]
    exact roleAdd_self_mem _ _ _
  · intro hf
    rw [connRegister_pkg]
    have hh : assocHas cm.package_subscriptions uid = false := by simp [assocHas, hf]
    simp only [hh, Bool.false_eq_true, if_false]
    exact assocFind_append_none _ _ _ hf
  · intro s hf
    rw [connRegister_pkg]
    have hh : assocHas cm.package_subscriptions uid = true := by simp [assocHas, hf]
    simp only [hh, if_true]
    exact hf

/-- Witness for C8's amended theorem: connecting user 1 on top of the
orphaned package entry keeps that entry. -/
theorem connect_registration_spec_witness :
    connect behOk cmOrphan 1 UserRole.courier =
      Except.ok (connRegister cmOrphan 1 UserRole.courier,
        [(1, Envelope.connectionEstablished 1 UserRole.courier)]) ∧
    1 ∈ (connRegister cmOrphan 1 UserRole.courier).active_connections ∧
    assocFind (connRegister cmOrphan 1 UserRole.courier).package_subscriptions 1 = some [3] := by
  have h := connect_registration_spec behOk cmOrphan 1 UserRole.courier (by decide)
  exact ⟨h.1, h.2.1, h.2.2.2.2.1 [3] (by decide)⟩

/-! ## Claim C9 -/

/-- C9 counterexample: user 1 is connected and already subscribed to package
3; subscribing to package 3 again and then unsubscribing leaves the set
empty, not the prior `{3}` — the round trip fails when the ref was already a
member (set `add` is idempotent but `discard` removes the pre-existing
element). -/
theorem subscribe_unsubscribe_not_involutive_cex :
    assocFind cmP3.package_subscriptions 1 = some [3] ∧
    subscribe_to_package behOk cmP3 1 3 =
      Except.ok (cmRT1, [(1, Envelope.packageSubscribed 3)]) ∧
    unsubscribe_from_package behOk cmRT1 1 3 =
      Except.ok (cmRT2, [(1, Envelope.packageUnsubscribed 3)]) ∧
    assocFind cmRT2.package_subscriptions 1 = some [] ∧
    some ([] : List Nat) ≠ some ([3] : List Nat) :=
  ⟨by decide, rfl, rfl, by decide, by decide⟩

/-- C9 (amended): for a connected identity with a healthy transport,
`subscribe` then `unsubscribe` of the same package ref restores the whole
manager state (in particular the identity's SubscriptionSet) to exactly its
prior value, provided the ref was not already a member of the set. -/
theorem subscribe_unsubscribe_roundtrip (beh : Nat → SendBeh) (cm : ConnectionManager)
    (uid pid : Nat) (s : List Nat)
    (hconn : uid ∈ cm.active_connections) (hok : beh uid = SendBeh.ok)
    (hf : assocFind cm.package_subscriptions uid = some s) (hpid : pid ∉ s) :
    subscribe_to_package beh cm uid pid =
      Except.ok (pkgSubAdd cm uid pid, [(uid, Envelope.packageSubscribed pid)]) ∧
    unsubscribe_from_package beh (pkgSubAdd cm uid pid) uid pid =
      Except.ok (cm, [(uid, Envelope.packageUnsubscribed pid)]) := by
  have hact : uid ∈ (pkgSubAdd cm uid pid).active_connections := by
    rw [pkgSubAdd_active]
    exact hconn
  constructor
  · simp only [subscribe_to_package, spm_send_ok beh _ _ uid hact hok]
  · have hfound : assocFind (pkgSubAdd cm uid pid).package_subscriptions uid =
        some (addElem s pid) := by
      rw [pkgSubAdd_find, hf]
      rfl
    have hh : assocHas (pkgSubAdd cm uid pid).package_subscriptions uid = true := by
      simp [assocHas, hfound]
    have hgf : (addElem s pid).filter (fun x => x != pid) = s := by
      unfold addElem
      rw [if_neg hpid, List.filter_append]
      have h1 : s.filter (fun x => x != pid) = s := by
        rw [List.filter_eq_self]
        intro a ha
        simp only [bne_iff_ne, ne_eq]
        exact fun e => hpid (e ▸ ha)
      rw [h1]
      simp
    have hdiscard : pkgSubDiscard (pkgSubAdd cm uid pid) uid pid = cm := by
      refine cm_eq _ _ ?_ ?_ ?_ ?_ ?_
      · rw [pkgSubDiscard_active, pkgSubAdd_active]
      · rw [pkgSubDiscard_roles, pkgSubAdd_roles]
      · rw [pkgSubDiscard_pkg_has _ _ _ hh, pkgSubAdd_pkg_found cm uid pid s hf,
          assocUpdate_update]
        exact assocUpdate_id_of_find cm.package_subscriptions uid _ s hf hgf
      · rw [pkgSubDiscard_delivery, pkgSubAdd_delivery]
      · rw [pkgSubDiscard_loop, pkgSubAdd_loop]
    simp only [unsubscribe_from_package, hdiscard, spm_send_ok beh cm _ uid hconn hok]

/-- Witness for C9's amended theorem: user 1 connected with set `{3}`,
round-tripping package 5 (not a member) restores the state. -/
theorem subscribe_unsubscribe_roundtrip_witness :
    subscribe_to_package behOk cmP3 1 5 =
      Except.ok (pkgSubAdd cmP3 1 5, [(1, Envelope.packageSubscribed 5)]) ∧
    unsubscribe_from_package behOk (pkgSubAdd cmP3 1 5) 1 5 =
      Except.ok (cmP3, [(1, Envelope.packageUnsubscribed 5)]) :=
  subscribe_unsubscribe_roundtrip behOk cmP3 1 5 [3] (by decide) (by decide)
    (by decide) (by decide)

/-! ## Claim C1 -/

/-- C1 counterexample: user 1 connects, subscribes to delivery 7, and
disconnects; the delivery-namespace entry `(1, [7])` is still present after
the disconnect, so disconnect does not clear the subscriptions in both
namespaces. -/
theorem disconnect_leaves_delivery_subscriptions_cex :
    (disconnect cmAB7 1).delivery_subscriptions = [(1, [7])] ∧
    1 ∉ (disconnect cmAB7 1).active_connections ∧
    ([((1 : Nat), [(7 : Nat)])] : List (Nat × List Nat)) ≠ [] :=
  ⟨by decide, by decide, by decide⟩

/-- C1 (amended): for a connected identity, `disconnect` removes it from the
live map and from every role set and deletes its package-namespace
subscription entry, but leaves its delivery-namespace subscriptions in
place; nevertheless no subsequent notify fan-out (either namespace) ever
delivers an envelope to the disconnected identity, because sends skip
identities without a live connection. -/
theorem disconnect_cleanup_spec (cm : ConnectionManager) (uid : Nat)
    (h : uid ∈ cm.active_connections) :
    uid ∉ (disconnect cm uid).active_connections ∧
    (∀ r, uid ∉ roleGet (disconnect cm uid).connections_by_role r) ∧
    assocFind (disconnect cm uid).package_subscriptions uid = none ∧
    (disconnect cm uid).delivery_subscriptions = cm.delivery_subscriptions ∧
    (∀ beh d lat lng ts cm' outs,
      notify_delivery_location beh (disconnect cm uid) d lat lng ts = Except.ok (cm', outs) →
      ∀ e, (uid, e) ∉ outs) ∧
    (∀ beh pid ut pl cm' outs,
      notify_package_update beh (disconnect cm uid) pid ut pl = Except.ok (cm', outs) →
      ∀ e, (uid, e) ∉ outs) := by
  have hna : uid ∉ (disconnect cm uid).active_connections := by
    rw [disconnect_active_iff]
    simp
  refine ⟨hna, ?_, ?_, disconnect_delivery cm uid, ?_, ?_⟩
  · intro r
    rw [disconnect_roles, if_pos h]
    exact roleDiscardAll_not_mem _ _ _
  · rw [disconnect_pkg, if_pos h]
    by_cases hh : assocHas cm.package_subscriptions uid
    · simp only [hh, if_true]
      exact assocFind_del _ _
    · simp only [hh, Bool.false_eq_true, if_false]
      exact find_none_of_has_false _ _ (by simpa using hh)
  · intro beh d lat lng ts cm' outs hnot e
    exact notify_delivery_out_active beh _ d lat lng ts cm' outs hnot uid hna e
  · intro beh pid ut pl cm' outs hnot e
    exact notify_package_out_active beh _ pid ut pl cm' outs hnot uid hna e

/-- Witness for C1's amended theorem at the concrete two-user state. -/
theorem disconnect_cleanup_spec_witness :
    1 ∉ (disconnect cmAB7 1).active_connections ∧
    1 ∉ roleGet (disconnect cmAB7 1).connections_by_role UserRole.courier ∧
    assocFind (disconnect cmAB7 1).package_subscriptions 1 = none ∧
    (disconnect cmAB7 1).delivery_subscriptions = cmAB7.delivery_subscriptions := by
  have h := disconnect_cleanup_spec cmAB7 1 (by decide)
  exact ⟨h.1, h.2.1 UserRole.courier, h.2.2.1, h.2.2.2.1⟩

/-! ## Claim C3 -/

/-- C3: invoking the cross-context bridge with zero live connections returns
without error, delivers no envelope to any identity, drops the event
(nothing is queued for later), and leaves the registry and subscription
state unchanged — for any transport behaviour and any outcome of the
fallback scheduling attempt. -/
theorem bridge_notify_no_connections_noop (beh : Nat → SendBeh) (fb : Bool)
    (cm : ConnectionManager) (d : Nat) (lat lng : Rat)
    (h : cm.active_connections = []) :
    bridge_notify_delivery_location beh fb cm d lat lng = (cm, []) := by
  have hn : notify_delivery_location beh cm d lat lng none = Except.ok (cm, []) := by
    simp only [notify_delivery_location]
    split
    · rfl
    · simp only [notifyLoop_no_active beh _ (subscribersOf cm d) cm h]
  rcases hl : cm.loop with _ | u
  · simp only [bridge_notify_delivery_location, hl]
    cases fb
    · simp
    · simp [hn]
  · simp only [bridge_notify_delivery_location, hl, hn]

/-- Witness for C3: both users disconnected again (a stale delivery
subscription entry remains), the bridge call is a no-op. -/
theorem bridge_notify_no_connections_noop_witness :
    bridge_notify_delivery_location behOk true cmDead 7 (mkRat 1234 100) (mkRat 5678 100) =
      (cmDead, []) :=
  bridge_notify_no_connections_noop behOk true cmDead 7 (mkRat 1234 100) (mkRat 5678 100)
    (by decide)

/-! ## Claim C4 -/

/-- C4: a role broadcast delivers to exactly the identities connected with
the role at resolution time: no envelope is ever delivered to an identity
outside the role's snapshot, and when every member of the snapshot is
connected with a healthy transport, every member receives the envelope
exactly once (the log is the snapshot itself, pairwise). -/
theorem broadcast_to_role_exact_set (beh : Nat → SendBeh) (cm : ConnectionManager)
    (msg : Envelope) (role : UserRole)
    (hnd : (roleGet cm.connections_by_role role).Nodup) :
    (∀ cm' outs, broadcast_to_role beh cm msg role = Except.ok (cm', outs) →
      ∀ p ∈ outs, p.1 ∈ roleGet cm.connections_by_role role) ∧
    ((∀ u ∈ roleGet cm.connections_by_role role,
        u ∈ cm.active_connections ∧ beh u = SendBeh.ok) →
      broadcast_to_role beh cm msg role =
        Except.ok (cm, (roleGet cm.connections_by_role role).map (fun u => (u, msg)))) := by
  constructor
  · intro cm' outs h p hp
    rw [broadcast_role_outs beh cm msg role hnd cm' outs h] at hp
    obtain ⟨u, hu, he⟩ := List.mem_map.mp hp
    rw [← he]
    exact (List.mem_filter.mp hu).1
  · exact broadcast_role_all_ok beh cm msg role

/-- Witness for C4: both couriers of `cmCC` receive the broadcast exactly
once. -/
theorem broadcast_to_role_exact_set_witness :
    broadcast_to_role behOk cmCC
        (Envelope.packageUpdate "updated" 3 "p" tsDefault) UserRole.courier =
      Except.ok (cmCC,
        [(1, Envelope.packageUpdate "updated" 3 "p" tsDefault),
         (2, Envelope.packageUpdate "updated" 3 "p" tsDefault)]) :=
  (broadcast_to_role_exact_set behOk cmCC
      (Envelope.packageUpdate "updated" 3 "p" tsDefault) UserRole.courier (by decide)).2
    (by decide)

/-! ## Claim C5 -/

/-- C5: one delivery-location broadcast hands each subscribed identity
exactly one `delivery_location` envelope carrying the given coordinates (the
delivery log is the duplicate-free subscriber snapshot paired with the
envelope), and identities not subscribed receive none. -/
theorem notify_delivery_location_exact_copies (beh : Nat → SendBeh) (cm : ConnectionManager)
    (d : Nat) (lat lng : Rat) (ts : Option String)
    (hnd : (cm.delivery_subscriptions.map Prod.fst).Nodup)
    (hall : ∀ u ∈ subscribersOf cm d, u ∈ cm.active_connections ∧ beh u = SendBeh.ok) :
    notify_delivery_location beh cm d lat lng ts =
      Except.ok (cm, (subscribersOf cm d).map
        (fun u => (u, Envelope.deliveryLocation d lat lng (ts.getD tsDefault)))) ∧
    (subscribersOf cm d).Nodup := by
  refine ⟨notify_delivery_all_ok beh cm d lat lng ts hall, ?_⟩
  unfold subscribersOf
  have hsub : ((cm.delivery_subscriptions.filter (fun p => decide (d ∈ p.2))).map
      Prod.fst).Sublist (cm.delivery_subscriptions.map Prod.fst) :=
    List.Sublist.map Prod.fst (List.filter_sublist _)
  exact List.Nodup.sublist hsub hnd

/-- Witness for C5, the spec's scenario: A (courier, user 1) and B (sender,
user 2) connected, only A subscribed to delivery 7; the broadcast with
coordinates 12.34 and 56.78 delivers exactly one envelope, to A, and none to
B. -/
theorem notify_delivery_location_exact_copies_witness :
    notify_delivery_location behOk cmAB7 7 (mkRat 1234 100) (mkRat 5678 100) none =
      Except.ok (cmAB7,
        [(1, Envelope.deliveryLocation 7 (mkRat 1234 100) (mkRat 5678 100) tsDefault)]) ∧
    2 ∉ subscribersOf cmAB7 7 :=
  ⟨(notify_delivery_location_exact_copies behOk cmAB7 7 (mkRat 1234 100) (mkRat 5678 100)
      none (by decide) (by decide)).1, by decide⟩

/-! ## Claim C7 -/

/-- C7: fan-out is failure-isolated per recipient: for any transport
behaviour, the delivery log of a role broadcast is exactly one envelope for
each member of the resolved snapshot that is connected and whose transport
send succeeds — a failure for one recipient does not abort the rest, and an
unreachable or failing recipient is simply skipped, with no retry and no
buffering. -/
theorem broadcast_to_role_failure_isolated (beh : Nat → SendBeh) (cm : ConnectionManager)
    (msg : Envelope) (role : UserRole)
    (hnd : (roleGet cm.connections_by_role role).Nodup) :
    ∀ cm' outs, broadcast_to_role beh cm msg role = Except.ok (cm', outs) →
      outs = ((roleGet cm.connections_by_role role).filter (fun u =>
          decide (u ∈ cm.active_connections) && decide (beh u = SendBeh.ok))).map
        (fun u => (u, msg)) :=
  broadcast_role_outs beh cm msg role hnd

/-- Witness for C7: with both couriers connected and user 1's transport
dead, user 2 still receives the broadcast (the failure did not abort the
fan-out) and user 1 is skipped. -/
theorem broadcast_to_role_failure_isolated_witness :
    [((2 : Nat), Envelope.deliverySubscribed 9)] =
      ((roleGet cmCC.connections_by_role UserRole.courier).filter (fun u =>
          decide (u ∈ cmCC.active_connections) && decide (behMix u = SendBeh.ok))).map
        (fun u => (u, Envelope.deliverySubscribed 9)) :=
  broadcast_to_role_failure_isolated behMix cmCC (Envelope.deliverySubscribed 9)
    UserRole.courier (by decide) (disconnect cmCC 1)
    [(2, Envelope.deliverySubscribed 9)] rfl
